import Mathlib

/-!
Shallow embedding of the classification engine of the `gerencaiwu` repository
(`src/transaction_classifier.py` and `src/enhanced_classifier.py`), together
with theorems settling the specification claims about it.

Conventions of the embedding:
* Python machine floats are idealised as exact rationals (`Rat`); all the
  classifier's arithmetic on amounts consists of comparisons and absolute
  values, which are order-faithful under this idealisation.
* A pandas row (`pd.Series`) is an association list from column names to
  dynamically typed cells (`Val`), looked up with `rowGet` which mirrors
  `row.get(key, default)`.
* Fallible Python code (`try`/`except`) is embedded with `Option`/`Except`:
  a `none`/`.error` result marks the path on which the corresponding Python
  exception is raised and caught.
* `re.search` is modelled for patterns without regex metacharacters (where it
  is exactly substring search), and the key patterns produced by
  `stored_key.replace('*', '.*')` wrapped in `^...$` are modelled by the glob
  matcher `globMatch` (exact for keys whose only metacharacter is `*`).
-/

/-- A dynamically typed cell of a pandas row: string, number (idealised
float/int), boolean, or missing (`None`/`NaN`). -/
inductive Val where
  | str (s : String)
  | num (q : Rat)
  | bool (b : Bool)
  | none
deriving DecidableEq, Repr

/-- A pandas row (`pd.Series`): an association list from column name to cell. -/
abbrev PyRow := List (String × Val)

/-- `row.get(key, default)`: value of the first matching column, else the default. -/
def rowGet : PyRow → String → Val → Val
  | [], _, d => d
  | (k2, v) :: t, k, d => if k2 = k then v else rowGet t k d

/-- Functional update of a row cell (used to model in-place column assignment):
replaces the first binding of the key, or appends a new binding. -/
def rowSet : PyRow → String → Val → PyRow
  | [], k, v => [(k, v)]
  | (k2, v2) :: t, k, v => if k2 = k then (k, v) :: t else (k2, v2) :: rowSet t k v

/-- Python truthiness of a cell (`bool(v)`): empty string, zero, `False` and
`None` are falsy. -/
def pyTruthy : Val → Bool
  | Val.str s => s ≠ ""
  | Val.num q => q ≠ 0
  | Val.bool b => b
  | Val.none => false

/-- Python `a or b`: `a` when truthy, else `b`. -/
def pyOr (a b : Val) : Val := if pyTruthy a then a else b

/-- Decimal digits of a natural number (most significant first). -/
def natDigits (n : Nat) : List Char :=
  (Nat.toDigits 10 n)

/-- Finite decimal expansion of a rational, `fuel` fractional digits at most.
Exact for every value a Python float can hold (denominator a power of two)
within the fuel; the int/float display difference (`12` vs `12.0`) is
abstracted by printing integers without a decimal point.  Only the cells of
text columns ever reach `str()` in the theorems below, so this case is never
load-bearing. -/
def ratDecimalRepr (q : Rat) : String :=
  let sign := if q < 0 then "-" else ""
  let aq := |q|
  let ip := aq.floor.toNat
  let rec fracDigits (fuel : Nat) (r : Rat) : List Char :=
    match fuel with
    | 0 => []
    | fuel + 1 =>
      if r = 0 then []
      else
        let r10 := r * 10
        let d := r10.floor.toNat
        (natDigits d).headD '0' :: fracDigits fuel (r10 - r10.floor)
  let frac := fracDigits 30 (aq - aq.floor)
  if frac.isEmpty then sign ++ String.mk (natDigits ip)
  else sign ++ String.mk (natDigits ip) ++ "." ++ String.mk frac

/-- Python `str(v)` on a cell. -/
def pyStr : Val → String
  | Val.str s => s
  | Val.num q => ratDecimalRepr q
  | Val.bool b => if b then "True" else "False"
  | Val.none => "None"

/-- The idiom `str(v or '')` pervasive in the classifier. -/
def pyStrOr (v : Val) : String := pyStr (pyOr v (Val.str ""))

/-- Whitespace test used by `str.strip()` (ASCII subset of Python's). -/
def isSpaceChar (c : Char) : Bool := c = ' ' || c = '\t' || c = '\n' || c = '\r'

/-- Python `str.strip()`. -/
def pyStrip (s : String) : String :=
  String.mk (((s.data.dropWhile isSpaceChar).reverse.dropWhile isSpaceChar).reverse)

/-- ASCII lowering of one character (`str.lower()`; the Chinese text the
classifier handles is unaffected by case). -/
def lowerChar (c : Char) : Char :=
  if 'A' ≤ c ∧ c ≤ 'Z' then Char.ofNat (c.toNat + 32) else c

/-- Python `str.lower()` (ASCII subset). -/
def pyLower (s : String) : String := String.mk (s.data.map lowerChar)

/-- Locate the first occurrence of `needle` in `hay` and return the remainder
after it (`none` when absent).  Workhorse for substring search. -/
def findDrop (needle : List Char) : List Char → Option (List Char)
  | [] => if needle.isEmpty then some [] else Option.none
  | h :: t =>
    if needle.isPrefixOf (h :: t) then some ((h :: t).drop needle.length)
    else findDrop needle t

/-- Python `sub in hay` on strings: substring containment. -/
def strContains (hay sub : String) : Bool := (findDrop sub.data hay.data).isSome

/-- Models `re.search(pattern, text)` for patterns without regex
metacharacters, where it coincides with substring search.  Every pattern the
theorems below feed it is metacharacter-free. -/
def reSearch (pattern text : String) : Bool := strContains text pattern

/-- Split a character list on a separator character. -/
def splitCharAux (c : Char) : List Char → List Char → List (List Char)
  | [], acc => [acc.reverse]
  | h :: t, acc =>
    if h = c then acc.reverse :: splitCharAux c t [] else splitCharAux c t (h :: acc)

/-- Split on a character, list-of-chunks form. -/
def splitChar (c : Char) (s : List Char) : List (List Char) := splitCharAux c s []

/-- Chunks of a pattern between `*` wildcards. -/
def globChunks (pat : String) : List (List Char) := splitChar '*' pat.data

/-- Does `c` occur as a suffix of `s`? -/
def isSuffixOfList (c s : List Char) : Bool := c.reverse.isPrefixOf s.reverse

/-- Match the middle/last chunks of a glob: each chunk must occur in order,
and the final chunk must end the string (the trailing `$` anchor). -/
def globTail : List (List Char) → List Char → Bool
  | [], s => s.isEmpty
  | [c], s => isSuffixOfList c s
  | c :: c2 :: rest, s =>
    match findDrop c s with
    | some s2 => globTail (c2 :: rest) s2
    | Option.none => false

/-- Models `re.match('^' + key.replace('*', '.*') + '$', text)` (line 124–126
of `transaction_classifier.py`) for keys whose only regex metacharacter is
`*`: anchored matching where each `*` absorbs any substring. -/
def globMatch (pat text : String) : Bool :=
  match globChunks pat with
  | [] => text.isEmpty
  | [c] => text.data = c
  | c :: c2 :: rest =>
    c.isPrefixOf text.data && globTail (c2 :: rest) (text.data.drop c.length)

/-- Digits-only parse of a character list to a natural number. -/
def natOfDigits : List Char → Option Nat
  | [] => Option.none
  | l =>
    if l.all Char.isDigit then
      some (l.foldl (fun acc c => acc * 10 + (c.toNat - '0'.toNat)) 0)
    else Option.none

/-- Models Python `float(s)` for plain decimal literals (optional sign, digits
with at most one point; exponents and specials are treated as unparsable,
which no theorem below exercises). -/
def parseFloat (s : String) : Option Rat :=
  let l := (s.data.dropWhile isSpaceChar).reverse.dropWhile isSpaceChar |>.reverse
  let (sgn, body) : Rat × List Char :=
    match l with
    | '-' :: t => (-1, t)
    | '+' :: t => (1, t)
    | t => (1, t)
  match splitChar '.' body with
  | [a] => (natOfDigits a).map (fun n => sgn * n)
  | [a, b] =>
    if a.isEmpty ∧ b.isEmpty then Option.none
    else if a.all Char.isDigit ∧ b.all Char.isDigit then
      let ip : Nat := a.foldl (fun acc c => acc * 10 + (c.toNat - '0'.toNat)) 0
      let fp : Nat := b.foldl (fun acc c => acc * 10 + (c.toNat - '0'.toNat)) 0
      some (sgn * ((ip : Rat) + (fp : Rat) / ((10 : Rat) ^ b.length)))
    else Option.none
  | _ => Option.none

/-- Python `float(v)` on a cell; `none` is the raising path (`TypeError` /
`ValueError`), which the callers catch. -/
def pyFloat : Val → Option Rat
  | Val.num q => some q
  | Val.str s => parseFloat s
  | Val.bool b => some (if b then 1 else 0)
  | Val.none => Option.none

/-- Models `pd.to_datetime(s).hour` for the canonical timestamp format
`YYYY-MM-DD HH:MM:SS` the parsers emit; any other shape is treated as the
raising path (caught, yielding the empty hour). -/
def parseHourPy (s : String) : Option Nat :=
  match splitChar ' ' s.data with
  | [d, t] =>
    match splitChar '-' d, splitChar ':' t with
    | [y, mo, da], [hh, mi, ss] => do
      let yn ← natOfDigits y
      let mn ← natOfDigits mo
      let dn ← natOfDigits da
      let hn ← natOfDigits hh
      let min2 ← natOfDigits mi
      let sn ← natOfDigits ss
      if 0 < yn ∧ 1 ≤ mn ∧ mn ≤ 12 ∧ 1 ≤ dn ∧ dn ≤ 31 ∧ hn < 24 ∧ min2 < 60 ∧ sn < 60 then
        some hn
      else Option.none
    | _, _ => Option.none
  | _ => Option.none

/-- The `hour` variable as interpolated into a key: the number's decimal form,
or the empty string when timestamp parsing raised. -/
def hourStrOf : Option Nat → String
  | some h => String.mk (natDigits h)
  | Option.none => ""

/-- The `金额模糊化` (amount fuzzing) block of `系统设置`, with the defaults the
code supplies at each `.get` site (`transaction_classifier.py` lines 75–79,
188–190).  `enable` mirrors the `启用` key, which the code reads but never
uses. -/
structure SysFuzzy where
  enable : Bool := true
  ignoreAmount : Bool := false
  intervals : List Nat := [0, 10, 20, 50, 100, 300, 500]
  maxLabel : String := "500+"
deriving DecidableEq, Repr

/-- The static rule tree `分类规则` read from `config.json`
(`transaction_classifier.py` line 22, used at lines 160–175).
`nonOperational` is the `非收支` keyword list, `expenseCats` the `支出`
category → keywords mapping, `incomeCats` the `收入` one. -/
structure ClassRules where
  nonOperational : List String := []
  expenseCats : List (String × List String) := []
  incomeCats : List (String × List String) := []
deriving DecidableEq, Repr

/-- Classifier configuration after JSON decoding, with the code's `.get`
defaults resolved into Lean default field values. -/
structure Config where
  fuzzy : SysFuzzy := {}
  rules : ClassRules := {}
deriving DecidableEq, Repr

/-- The default configuration (all `.get` fallbacks). -/
def defaultConfig : Config := {}

/-- One entry of a user-rule list: `{"desc_regex": ..., "category": ...}`. -/
structure UserRule where
  descRegex : String
  category : String
deriving DecidableEq, Repr

/-- A value of the user-classification store.  The JSON format (and
`classify_transaction`'s consumption, lines 132–143) is a list of rule dicts;
`add_user_classification` (line 257) stores a bare category string.  Both
shapes therefore inhabit the store. -/
inductive RuleVal where
  | rules (rs : List UserRule)
  | strVal (s : String)
deriving DecidableEq, Repr

/-- `self.user_classifications`: an insertion-ordered dict from fingerprint
keys to rule values. -/
abbrev UserStore := List (String × RuleVal)

/-- Dict lookup (`store[key]` / `key in store`). -/
def lookupVal : UserStore → String → Option RuleVal
  | [], _ => Option.none
  | (k2, v) :: t, k => if k2 = k then some v else lookupVal t k

/-- Dict assignment `store[key] = v`: overwrite in place or append. -/
def storeSet : UserStore → String → RuleVal → UserStore
  | [], k, v => [(k, v)]
  | (k2, v2) :: t, k, v => if k2 = k then (k, v) :: t else (k2, v2) :: storeSet t k v

/-- Python truthiness of a store value (`if matched_rules:`). -/
def ruleValTruthy : RuleVal → Bool
  | RuleVal.rules rs => ¬ rs.isEmpty
  | RuleVal.strVal s => s ≠ ""

/-- The hardcoded failure/reversal status keywords
(`transaction_classifier.py` line 60). -/
def failStatusKeywords : List String :=
  ["对方已退还", "已全额退款", "还款失败", "失败", "退款", "退还"]

/-- `status = str(row.get('交易状态', '') or '').strip()` (line 61). -/
def statusTextOf (row : PyRow) : String :=
  pyStrip (pyStrOr (rowGet row "交易状态" (Val.str "")))

/-- The status-override test of lines 60–62: does the stripped status text
contain any failure keyword? -/
def statusFailHit (row : PyRow) : Bool :=
  failStatusKeywords.any (fun kw => strContains (statusTextOf row) kw)

/-- The generic-merchant allow-list of `classify_transaction` (line 102). -/
def genericPartiesClassify : List String :=
  ["余额宝", "淘宝（中国）软件有限公司", "芝麻信用", "借呗", "多多有礼", "青云租"]

/-- The generic-merchant allow-list of `_fingerprint` (line 231); note it
differs from the one in `classify_transaction`. -/
def genericPartiesFingerprint : List String :=
  ["拼多多平台商户", "抖音电商商家", "淘宝（中国）软件有限公司", "芝麻信用", "多多有礼", "借呗",
   "余额宝"]

/-- The bucket-search loop shared verbatim by `classify_transaction`
(lines 87–92) and `_fingerprint` (lines 225–228): first half-open interval
`[intervals[i], intervals[i+1])` containing the absolute amount wins, label
`"{low}-{high}"`; no hit leaves the overflow label. -/
def bucketLabel (maxLabel : String) (a : Rat) : List Nat → String
  | x :: y :: rest =>
    if (x : Rat) ≤ a ∧ a < (y : Rat) then
      String.mk (natDigits x) ++ "-" ++ String.mk (natDigits y)
    else bucketLabel maxLabel a (y :: rest)
  | _ => maxLabel

/-- The `amount_part` computation of `classify_transaction` (lines 80–93).
Faithful to the source's indentation: in the `amount_abs == 0` branch the
code sets `amount_label = "0"` but the assignment `amount_part = ...` sits
inside the `else` block, so for a zero amount `amount_part` keeps its initial
value `""` and the `"0"` label is a dead store. -/
def classifyAmountPart (f : SysFuzzy) (amount : Rat) : String :=
  if f.ignoreAmount then ""
  else if |amount| = 0 then ""
  else bucketLabel f.maxLabel |amount| f.intervals

/-- The per-row context the user-rule lookup works with (lines 65–93):
`none` when `float(row.get('金额', 0) or 0)` raises, which aborts the whole
`try` block. -/
structure LookupCtx where
  amountPart : String
  party : String
  desc : String
  hourStr : String
deriving DecidableEq, Repr

/-- Build the lookup context of `classify_transaction` (lines 65–93). -/
def lookupCtx (cfg : Config) (row : PyRow) : Option LookupCtx :=
  match pyFloat (pyOr (rowGet row "金额" (Val.num 0)) (Val.num 0)) with
  | Option.none => Option.none
  | some amount =>
    some
      { amountPart := classifyAmountPart cfg.fuzzy amount
        party := pyStrip (pyStrOr (rowGet row "交易对方" (Val.str "")))
        desc := pyStrip (pyStrOr (rowGet row "商品说明" (Val.str "")))
        hourStr := hourStrOf (parseHourPy (pyStrOr (rowGet row "交易时间" (Val.str "")))) }

/-- The precise key `f"{amount_part}_{party}_{hour}"` (line 97, also the
`test_key` of line 125). -/
def exactKey (c : LookupCtx) : String := c.amountPart ++ "_" ++ c.party ++ "_" ++ c.hourStr

/-- The wildcard key `f"{amount_part}_{party}_*"` (line 98). -/
def wildKey (c : LookupCtx) : String := c.amountPart ++ "_" ++ c.party ++ "_*"

/-- `possible_keys` of lines 96–104 (the generic-merchant branch appends a
duplicate of the wildcard key). -/
def possibleKeys (c : LookupCtx) : List String :=
  [exactKey c, wildKey c] ++ (if c.party ∈ genericPartiesClassify then [wildKey c] else [])

/-- The presence loop of lines 112–118: first key present in the store wins,
regardless of its value's truthiness. -/
def firstPresent (store : UserStore) (keys : List String) : Option RuleVal :=
  keys.findSome? (fun k => lookupVal store k)

/-- The stored-key regex scan of lines 121–129: first stored key whose
`^key.replace('*','.*')$` pattern matches the test key. -/
def scanStore (store : UserStore) (testKey : String) : Option RuleVal :=
  store.findSome? (fun p => if globMatch p.1 testKey then some p.2 else Option.none)

/-- The rule-application block of lines 132–143 over a truthy matched value:
first entry with a nonempty `desc_regex` matching the description wins; with
no regex hit, the first entry's category is the fuzzy fallback.  A bare
string value takes the exception path (`'str' object has no attribute
'get'`), caught by the outer `except`, i.e. `none`. -/
def applyRuleVal : RuleVal → String → Option (String × String)
  | RuleVal.rules rs, desc =>
    match rs.findSome?
        (fun r => if r.descRegex ≠ "" ∧ reSearch r.descRegex desc then some r.category
                  else Option.none) with
    | some c => some (c, "user_rules")
    | Option.none =>
      match rs with
      | [] => Option.none
      | r :: _ => some (r.category, "user_rules")
  | RuleVal.strVal _, _ => Option.none

/-- The whole guarded user-rule block of `classify_transaction`
(lines 64–148): `none` is the fall-through to the config rules, whether by
miss or by caught exception. -/
def userRulesResult (cfg : Config) (store : UserStore) (row : PyRow) :
    Option (String × String) :=
  match lookupCtx cfg row with
  | Option.none => Option.none
  | some ctx =>
    let m0 := (firstPresent store (possibleKeys ctx)).getD (RuleVal.rules [])
    let m1 := if ruleValTruthy m0 then m0 else (scanStore store (exactKey ctx)).getD m0
    if ruleValTruthy m1 then applyRuleVal m1 ctx.desc else Option.none

/-- `self._text(value)` = `str(value or '').lower()` (lines 55–56). -/
def pyText (v : Val) : String := pyLower (pyStrOr v)

/-- First expense/income category whose keyword list hits the haystack
(lines 165–168 / 171–174). -/
def firstCatHit (cats : List (String × List String)) (hay : String) : Option String :=
  cats.findSome?
    (fun p => if p.2.any (fun kw => strContains hay (pyLower kw)) then some p.1
              else Option.none)

/-- The static-rule tail of `classify_transaction` (lines 150–176). -/
def configClassify (cfg : Config) (row : PyRow) : String × String :=
  if pyTruthy (rowGet row "跨平台转账" (Val.bool false)) then ("非收支", "config")
  else
    let tType := pyText (rowGet row "交易分类" (Val.str ""))
    let desc := pyText (rowGet row "商品说明" (Val.str ""))
    let party := pyText (rowGet row "交易对方" (Val.str ""))
    let incomeExpense := pyText (rowGet row "收/支" (Val.str ""))
    let haystack := tType ++ " " ++ desc ++ " " ++ party
    if cfg.rules.nonOperational.any (fun kw => strContains haystack (pyLower kw)) then
      ("非收支", "config")
    else if strContains incomeExpense "支出" then
      match firstCatHit cfg.rules.expenseCats haystack with
      | some c => ("支出-" ++ c, "config")
      | Option.none => ("支出-其他", "config")
    else if strContains incomeExpense "收入" then
      match firstCatHit cfg.rules.incomeCats haystack with
      | some c => ("收入-" ++ c, "config")
      | Option.none => ("收入-其他", "config")
    else ("未分类", "config")

/-- `classify_transaction` (lines 58–176): status override, then the guarded
user-rule block, then the static-rule tail. -/
def classifyTransaction (cfg : Config) (store : UserStore) (row : PyRow) :
    String × String :=
  if statusFailHit row then ("未达到分类要求", "status_filter")
  else
    match userRulesResult cfg store row with
    | some r => r
    | Option.none => configClassify cfg row

/-- The helper composing `_fingerprint`'s pieces (lines 230–236). -/
def fingerprintParts (party label hs : String) : String :=
  if party ∈ genericPartiesFingerprint then label ++ "_" ++ party ++ "_*"
  else label ++ "_" ++ party ++ "_" ++ hs

/-- The effective `_fingerprint` (the second definition, lines 205–236, which
shadows the identical-but-for-the-allowlist first one): bucket label (no
zero special-case), stripped counterparty, and hour or wildcard.  A raising
`float(...)` is caught locally, yielding amount `0.0` (lines 219–222). -/
def fingerprint (cfg : Config) (row : PyRow) : String :=
  fingerprintParts
    (pyStrip (pyStrOr (rowGet row "交易对方" (Val.str ""))))
    (bucketLabel cfg.fuzzy.maxLabel |(pyFloat (rowGet row "金额" (Val.num 0))).getD 0|
      cfg.fuzzy.intervals)
    (hourStrOf (parseHourPy (pyStrOr (rowGet row "交易时间" (Val.str "")))))

/-- `add_user_classification` (lines 256–259): store the bare category string
under the row's fingerprint (persistence is out of scope of the in-memory
semantics). -/
def addUserClassification (cfg : Config) (store : UserStore) (row : PyRow)
    (classification : String) : UserStore :=
  storeSet store (fingerprint cfg row) (RuleVal.strVal classification)

/-- A pandas `DataFrame`: a column-name list plus rows.  Column membership
models `col in df.columns`; an absent per-row binding reads as `NaN`
(`Val.none`). -/
structure DataFrame where
  cols : List String
  rows : List PyRow
deriving DecidableEq, Repr

/-- `df[col] = values` with one value per row: overwrite in place or append
the column. -/
def dfSetCol (d : DataFrame) (c : String) (vs : List Val) : DataFrame :=
  { cols := if c ∈ d.cols then d.cols else d.cols ++ [c]
    rows := List.zipWith (fun r v => rowSet r c v) d.rows vs }

/-- `df[col] = scalar`: broadcast assignment of one value to every row. -/
def dfSetColConst (d : DataFrame) (c : String) (v : Val) : DataFrame :=
  { cols := if c ∈ d.cols then d.cols else d.cols ++ [c]
    rows := d.rows.map (fun r => rowSet r c v) }

/-- `x.split('-')[-1] if isinstance(x, str) and '-' in x else str(x)` applied
to a category string (`classify_all_transactions`, lines 250–252). -/
def subCatOf (x : String) : String :=
  if strContains x "-" then
    ((splitChar '-' x.data).map String.mk).getLastD x
  else x

/-- The recomputation branch of `classify_all_transactions` (lines 242–254):
classify each row, then add the four derived columns. -/
def classifyAllCore (cfg : Config) (store : UserStore) (df : DataFrame) : DataFrame :=
  let results := df.rows.map (classifyTransaction cfg store)
  let cats := results.map Prod.fst
  let d1 := dfSetCol df "分类" (cats.map Val.str)
  let d2 := dfSetCol d1 "分类来源" (results.map (fun p => Val.str p.2))
  let d3 := dfSetCol d2 "调整后分类" (cats.map Val.str)
  dfSetCol d3 "调整后子分类" (cats.map (fun c => Val.str (subCatOf c)))

/-- `classify_all_transactions` (lines 238–254): short-circuit when both
classification columns are already present, else recompute. -/
def classifyAllTransactions (cfg : Config) (store : UserStore) (df : DataFrame) :
    DataFrame :=
  if "分类" ∈ df.cols ∧ "分类来源" ∈ df.cols then df
  else classifyAllCore cfg store df

/-- `pd.to_numeric(x, errors='coerce').fillna(0)` on one cell
(`get_classification_statistics`, line 279). -/
def toNumericCell : Val → Rat
  | Val.num q => q
  | Val.str s => (parseFloat s).getD 0
  | Val.bool b => if b then 1 else 0
  | Val.none => 0

/-- `series.str.startswith(p, na=False)` on one cell. -/
def valStartsWith (v : Val) (p : String) : Bool :=
  match v with
  | Val.str s => p.data.isPrefixOf s.data
  | _ => false

/-- Sum a row function over the rows passing a filter. -/
def sumBy (rows : List PyRow) (p : PyRow → Bool) (f : PyRow → Rat) : Rat :=
  (rows.filter p).foldl (fun acc r => acc + f r) 0

/-- Distinct cell values in first-appearance order (the grouping keys of
`value_counts`/`groupby`; Python dict iteration order is abstracted to
first appearance, the key→value content being what the theorems use). -/
def distinctVals (xs : List Val) : List Val :=
  xs.foldl (fun acc v => if v ∈ acc then acc else acc ++ [v]) []

/-- `.round(2)` on an aggregated sum (`numpy`'s half-even tie-break is
abstracted to `Rat.round`; no theorem depends on ties). -/
def round2 (q : Rat) : Rat := ((round (q * 100) : Int) : Rat) / 100

/-- The statistics record `get_classification_statistics` builds
(lines 261–315).  Field-for-key: `总收入`→`totalIncome`, `总支出`→`totalExpense`,
`非收支总额`→`nonOperTotal` (an `Option` because the `except`-branch dict of
lines 311–315 omits this key), `净收入`→`netIncome`, `分类统计`'s `数量`/`金额`→
`catCounts`/`catAmounts`, `平台统计`'s `sum`/`count`→`platformSums`/
`platformCounts`. -/
structure Stats where
  totalIncome : Rat
  totalExpense : Rat
  nonOperTotal : Option Rat
  netIncome : Rat
  catCounts : List (Val × Nat)
  catAmounts : List (Val × Rat)
  platformSums : List (Val × Rat)
  platformCounts : List (Val × Nat)
deriving DecidableEq, Repr

/-- The zeroed fallback object of the `except` branch (lines 311–315); note
the missing non-operational total. -/
def exceptStats : Stats :=
  { totalIncome := 0, totalExpense := 0, nonOperTotal := Option.none, netIncome := 0
    catCounts := [], catAmounts := [], platformSums := [], platformCounts := [] }

/-- The successful aggregation body of `get_classification_statistics`
(lines 278–305) over the working copy. -/
def computeStats (df1 : DataFrame) (catField : String) : Stats :=
  let amt := fun r => toNumericCell (rowGet r "金额" Val.none)
  let cat := fun r => rowGet r catField Val.none
  let totalIncome := sumBy df1.rows (fun r => valStartsWith (cat r) "收入") amt
  let totalExpense := sumBy df1.rows (fun r => valStartsWith (cat r) "支出") amt
  let nonOper := sumBy df1.rows (fun r => decide (cat r = Val.str "非收支")) amt
  let keys := distinctVals (df1.rows.map cat)
  let catCounts := keys.map (fun k => (k, (df1.rows.map cat).count k))
  let catAmounts := keys.map (fun k => (k, sumBy df1.rows (fun r => decide (cat r = k)) amt))
  let platformPair : List (Val × Rat) × List (Val × Nat) :=
    if "平台" ∈ df1.cols then
      let plat := fun r => rowGet r "平台" Val.none
      let pkeys := distinctVals (df1.rows.map plat)
      (pkeys.map (fun k => (k, round2 (sumBy df1.rows (fun r => decide (plat r = k)) amt))),
       pkeys.map (fun k => (k, (df1.rows.map plat).count k)))
    else ([], [])
  { totalIncome := totalIncome, totalExpense := totalExpense
    nonOperTotal := some nonOper, netIncome := totalIncome - totalExpense
    catCounts := catCounts, catAmounts := catAmounts
    platformSums := platformPair.1, platformCounts := platformPair.2 }

/-- The category-field pick of lines 267–275: the caller's DataFrame after
the (possibly mutating) pick, together with the chosen category field.  When
neither category column is usable, line 274 assigns the placeholder column
on the caller's object itself, before the working copy of line 278. -/
def statsWorkingDf (df : DataFrame) : DataFrame × String :=
  if "调整后分类" ∈ df.cols ∧ df.rows ≠ [] then (df, "调整后分类")
  else if "分类" ∈ df.cols ∧ df.rows ≠ [] then (df, "分类")
  else (dfSetColConst df "分类" (Val.str "未分类"), "分类")

/-- `get_classification_statistics` (lines 261–315), in state-passing form:
the first component is the caller's DataFrame object after the call, the
second the statistics.  In this model the one raising site inside the `try`
is the `df_copy['金额']` access with no `金额` column (line 279, a
`KeyError`); the `except` branch then returns the zeroed fallback. -/
def getClassificationStatistics (df : DataFrame) : DataFrame × Stats :=
  if "金额" ∈ (statsWorkingDf df).1.cols then
    ((statsWorkingDf df).1, computeStats (statsWorkingDf df).1 (statsWorkingDf df).2)
  else ((statsWorkingDf df).1, exceptStats)

/-- A decoded JSON value, for the configuration-loading paths. -/
inductive JVal where
  | obj (fields : List (String × JVal))
  | arr (xs : List JVal)
  | str (s : String)
  | num (q : Rat)
  | bool (b : Bool)
  | null
deriving Repr

/-- What reading-and-decoding a JSON file can yield: no file
(`FileNotFoundError` from `open`), undecodable content (`JSONDecodeError`
from `json.load`), or a decoded value. -/
inductive FileRead where
  | missing
  | malformed
  | content (j : JVal)
deriving Repr

/-- Python `key in j` on a decoded JSON value: dict-key membership, list
element equality against the string, substring test on a string, and a
`TypeError` (`.error`) on scalars. -/
def jContains (j : JVal) (key : String) : Except Unit Bool :=
  match j with
  | JVal.obj fs => Except.ok (fs.any (fun p => p.1 = key))
  | JVal.arr xs =>
    Except.ok (xs.any (fun x => match x with | JVal.str s => s = key | _ => false))
  | JVal.str s => Except.ok (strContains s key)
  | _ => Except.error ()

/-- Python `j[key]`: dict indexing; a `TypeError`/`KeyError` (`.error`)
otherwise. -/
def jIndex (j : JVal) (key : String) : Except Unit JVal :=
  match j with
  | JVal.obj fs =>
    match fs.findSome? (fun p => if p.1 = key then some p.2 else Option.none) with
    | some v => Except.ok v
    | Option.none => Except.error ()
  | _ => Except.error ()

/-- `j.get(key, default)` on a dict; `.error` is the `AttributeError` of
calling `.get` on a non-dict. -/
def jGetD (j : JVal) (key : String) (d : JVal) : Except Unit JVal :=
  match j with
  | JVal.obj fs =>
    match fs.findSome? (fun p => if p.1 = key then some p.2 else Option.none) with
    | some v => Except.ok v
    | Option.none => Except.ok d
  | _ => Except.error ()

/-- The fallback rule set returned by
`EnhancedTransactionClassifier._load_rules` (lines 34–41 of
`enhanced_classifier.py`). -/
def fallbackRules : JVal :=
  JVal.obj
    [("分类规则",
      JVal.obj
        [("支出", JVal.obj [("其他", JVal.obj [("keywords", JVal.arr [])])]),
         ("收入", JVal.obj [("其他", JVal.obj [("keywords", JVal.arr [])])]),
         ("非收支", JVal.obj [("其他", JVal.obj [("keywords", JVal.arr [])])])]),
     ("系统设置", JVal.obj [])]

/-- The structural assertion of `_load_rules` (line 30):
`'分类规则' in rules and '支出' in rules['分类规则']`, with Python's
short-circuit and dynamic `in` semantics; `.error` is any raised
`TypeError`, `.ok false` a failing assertion (`AssertionError`). -/
def rulesAssert (j : JVal) : Except Unit Bool := do
  let b1 ← jContains j "分类规则"
  if b1 then
    let v ← jIndex j "分类规则"
    jContains v "支出"
  else pure false

/-- `EnhancedTransactionClassifier._load_rules` (lines 24–41): every raising
path — missing file, undecodable JSON, failing assertion, `TypeError` inside
the assertion — is caught and yields the fallback rule set. -/
def enhancedLoadRules : FileRead → JVal
  | FileRead.missing => fallbackRules
  | FileRead.malformed => fallbackRules
  | FileRead.content j =>
    match rulesAssert j with
    | Except.ok true => j
    | _ => fallbackRules

/-- Does a loaded rule value satisfy the structural requirement the assert
checks for?  (Both `_load_rules` outcomes do.) -/
def rulesWellFormed (j : JVal) : Bool :=
  match rulesAssert j with
  | Except.ok true => true
  | _ => false

/-- The state `TransactionClassifier.__init__` builds (lines 16–24 of
`transaction_classifier.py`): the decoded config, the `分类规则` subtree (or
`{}`), and the user-rule store as loaded (`_load_user_rules` returns the
decoded dict, or `{}` on any error or non-dict content). -/
structure TCState where
  config : JVal
  classificationRules : JVal
  userStoreRaw : JVal

/-- `_load_user_rules` (lines 26–35): total, `{}` on every failure. -/
def loadUserRulesJ : FileRead → JVal
  | FileRead.content (JVal.obj fs) => JVal.obj fs
  | _ => JVal.obj []

/-- `TransactionClassifier.__init__` (lines 16–24): `open`/`json.load`
propagate on a missing or undecodable config file, and `.get` on a non-dict
config raises `AttributeError`; only a decoded JSON dict yields a
constructed classifier.  (`_load_user_rules` never raises.) -/
def transactionClassifierInit (configFile userFile : FileRead) : Except Unit TCState :=
  match configFile with
  | FileRead.content j =>
    match jGetD j "分类规则" (JVal.obj []) with
    | Except.ok r =>
      Except.ok { config := j, classificationRules := r, userStoreRaw := loadUserRulesJ userFile }
    | Except.error e => Except.error e
  | _ => Except.error ()

/-- Did construction succeed? -/
def initOk (e : Except Unit TCState) : Bool :=
  match e with
  | Except.ok _ => true
  | Except.error _ => false

/-! ## Helper lemmas -/

/-- Setting a column makes it a member of the column list. -/
theorem mem_dfSetCol_self (d : DataFrame) (c : String) (vs : List Val) :
    c ∈ (dfSetCol d c vs).cols := by
  by_cases h : c ∈ d.cols <;> simp [dfSetCol, h]

/-- Setting a column preserves membership of the other columns. -/
theorem mem_dfSetCol_of_mem (d : DataFrame) (c c2 : String) (vs : List Val)
    (h : c ∈ d.cols) : c ∈ (dfSetCol d c2 vs).cols := by
  by_cases h2 : c2 ∈ d.cols <;> simp [dfSetCol, h2, h]

/-- Updating one row key leaves the lookups of every other key unchanged. -/
theorem rowGet_rowSet_ne (r : PyRow) (k1 k2 : String) (v d : Val) (h : k2 ≠ k1) :
    rowGet (rowSet r k2 v) k1 d = rowGet r k1 d := by
  induction r with
  | nil => simp [rowSet, rowGet, h]
  | cons p t ih =>
    obtain ⟨k3, v3⟩ := p
    by_cases h3 : k3 = k2
    · subst h3; simp [rowSet, rowGet, h]
    · simp [rowSet, rowGet, h3, ih]

/-! ## C1 -/

/-- C1: for every transaction whose status text contains one of the
configured failure/reversal keywords, `classify_transaction` returns the
status-override category `未达到分类要求` with provenance `status_filter`,
regardless of the configuration, the user-rule store, and every other field
of the row. -/
theorem c1_status_override (cfg : Config) (store : UserStore) (row : PyRow)
    (h : statusFailHit row = true) :
    classifyTransaction cfg store row = ("未达到分类要求", "status_filter") := by
  simp [classifyTransaction, h]

/-- A concrete failed-status transaction exercising C1. -/
def c1row : PyRow :=
  [("交易状态", Val.str "已全额退款"), ("金额", Val.num 50),
   ("交易对方", Val.str "任意商家"), ("商品说明", Val.str "任意说明"),
   ("收/支", Val.str "支出")]

/-- Witness for C1 at a concrete refunded transaction. -/
theorem c1_status_override_witness :
    statusFailHit c1row = true ∧
    classifyTransaction defaultConfig [] c1row = ("未达到分类要求", "status_filter") :=
  ⟨by decide, c1_status_override defaultConfig [] c1row (by decide)⟩

/-! ## C2 -/

/-- C2: a table already carrying both classification columns is returned
unchanged by `classify_all_transactions`, and the operation is idempotent on
every table. -/
theorem c2_batch_idempotent (cfg : Config) (store : UserStore) (df : DataFrame) :
    (("分类" ∈ df.cols ∧ "分类来源" ∈ df.cols) →
      classifyAllTransactions cfg store df = df) ∧
    classifyAllTransactions cfg store (classifyAllTransactions cfg store df) =
      classifyAllTransactions cfg store df := by
  constructor
  · intro h
    simp [classifyAllTransactions, h]
  · by_cases h : "分类" ∈ df.cols ∧ "分类来源" ∈ df.cols
    · simp [classifyAllTransactions, h]
    · have hres : classifyAllTransactions cfg store df = classifyAllCore cfg store df := by
        simp [classifyAllTransactions, h]
      rw [hres]
      have h1 : "分类" ∈ (classifyAllCore cfg store df).cols := by
        simp only [classifyAllCore]
        exact mem_dfSetCol_of_mem _ _ _ _
          (mem_dfSetCol_of_mem _ _ _ _
            (mem_dfSetCol_of_mem _ _ _ _ (mem_dfSetCol_self _ _ _)))
      have h2 : "分类来源" ∈ (classifyAllCore cfg store df).cols := by
        simp only [classifyAllCore]
        exact mem_dfSetCol_of_mem _ _ _ _
          (mem_dfSetCol_of_mem _ _ _ _ (mem_dfSetCol_self _ _ _))
      simp [classifyAllTransactions, h1, h2]

/-- A table that already carries both classification columns. -/
def c2df : DataFrame :=
  { cols := ["分类", "分类来源"]
    rows := [[("分类", Val.str "支出-其他"), ("分类来源", Val.str "config")]] }

/-- Witness for C2's short-circuit at a concrete pre-classified table. -/
theorem c2_batch_idempotent_witness :
    classifyAllTransactions defaultConfig [] c2df = c2df :=
  (c2_batch_idempotent defaultConfig [] c2df).1 (by decide)

/-! ## C3 -/

/-- The transaction of `test_user_rules.py` (its 12.34 amount rounded to the
integral 12, which lands in the same `10-20` bucket and keeps kernel
evaluation free of rational normalisation). -/
def c3row : PyRow :=
  [("交易对方", Val.str "测试商家"), ("商品说明", Val.str "测试商品"),
   ("金额", Val.num 12), ("收/支", Val.str "支出"),
   ("交易分类", Val.str "购物")]

/-- C3 (code bug): teaching a category through `add_user_classification` and
re-classifying the very same transaction does NOT return the taught category
with provenance `user_rules`.  The teach operation stores a bare string while
the lookup expects a list of rule dicts, so the user-rule block raises
(`'str' object has no attribute 'get'`), is caught, and the static-rule tail
answers instead — contradicting the assertion of `test_user_rules.py`. -/
theorem c3_teach_roundtrip_fails :
    classifyTransaction defaultConfig
        (addUserClassification defaultConfig [] c3row "自定义-测试分类") c3row =
      ("支出-其他", "config") ∧
    ("支出-其他", "config") ≠ ("自定义-测试分类", "user_rules") ∧
    lookupVal (addUserClassification defaultConfig [] c3row "自定义-测试分类")
        "10-20_测试商家_" = some (RuleVal.strVal "自定义-测试分类") := by
  refine ⟨by decide, by decide, by decide⟩

/-! ## C5 -/

/-- A zero-amount transaction. -/
def c5row : PyRow := [("金额", Val.num 0), ("交易对方", Val.str "小店")]

/-- C5 (code bug): for an amount of exactly 0 the bucket token of the
user-rule lookup key is the EMPTY string, not `"0"`: the assignment
`amount_part = f"{amount_label}"` sits inside the nonzero `else` branch, so
the `amount_label = "0"` of line 85 is a dead store and the lookup key
degenerates to `_{party}_{hour}`. -/
theorem c5_zero_bucket_empty :
    classifyAmountPart defaultConfig.fuzzy 0 = "" ∧
    (lookupCtx defaultConfig c5row).map exactKey = some "_小店_" ∧
    ("" : String) ≠ "0" := by
  refine ⟨by decide, by decide, by decide⟩

/-! ## C10 -/

/-- C10: when the input table carries neither the adjusted-category column
nor the category column, `get_classification_statistics` assigns the
placeholder category column on the caller's DataFrame object itself (before
taking its working copy): the caller's table after the call is exactly the
input with the broadcast `分类 = 未分类` column, hence differs from the
input. -/
theorem c10_stats_mutates_input (df : DataFrame)
    (h1 : "调整后分类" ∉ df.cols) (h2 : "分类" ∉ df.cols) :
    (getClassificationStatistics df).1 = dfSetColConst df "分类" (Val.str "未分类") ∧
    (getClassificationStatistics df).1 ≠ df := by
  have hwork : (statsWorkingDf df).1 = dfSetColConst df "分类" (Val.str "未分类") := by
    unfold statsWorkingDf
    have hc1 : ¬ ("调整后分类" ∈ df.cols ∧ df.rows ≠ []) := fun hc => h1 hc.1
    have hc2 : ¬ ("分类" ∈ df.cols ∧ df.rows ≠ []) := fun hc => h2 hc.1
    simp [hc1, hc2]
  have hpick : (getClassificationStatistics df).1 =
      dfSetColConst df "分类" (Val.str "未分类") := by
    unfold getClassificationStatistics
    split <;> simp [hwork]
  refine ⟨hpick, ?_⟩
  rw [hpick]
  intro heq
  have hcols := congrArg DataFrame.cols heq
  simp only [dfSetColConst, h2, if_false] at hcols
  have hlen := congrArg List.length hcols
  simp at hlen

/-! ## C7 -/

/-- A transaction with a parseable timestamp and a description. -/
def c7row : PyRow :=
  [("金额", Val.num 12), ("交易对方", Val.str "示例店"),
   ("商品说明", Val.str "花生"), ("交易时间", Val.str "2023-01-01 05:00:00")]

/-- Counterexample to C7: the fingerprint under which a new user
classification is persisted is `{bucket}_{counterparty}_{hour}` — here
`10-20_示例店_5` — and not the description-based `{bucket}_{counterparty}_
{description}` key the claim states (`10-20_示例店_花生`). -/
theorem c7_persist_key_uses_hour_cex :
    fingerprint defaultConfig c7row = "10-20_示例店_5" ∧
    ("10-20_示例店_5" : String) ≠ "10-20_示例店_花生" := by
  refine ⟨by decide, by decide⟩

/-- C7 (amended): the persisted-rule fingerprint is insensitive to the
transaction's description — it is composed of bucket, counterparty and
hour-of-day (or the `*` wildcard for generic counterparties), never of the
description. -/
theorem c7_persist_key_ignores_desc (cfg : Config) (row : PyRow) (d : Val) :
    fingerprint cfg (rowSet row "商品说明" d) = fingerprint cfg row := by
  unfold fingerprint
  rw [rowGet_rowSet_ne _ _ _ _ _ (by decide),
    rowGet_rowSet_ne _ _ _ _ _ (by decide),
    rowGet_rowSet_ne _ _ _ _ _ (by decide)]

/-! ## C4 -/

/-- C4 (amended): whenever the exact fingerprint key is present in the store
with a nonempty rule list, the classification outcome is decided by that
entry alone — the wildcard key is never consulted (two stores agreeing on the
exact key classify identically, whatever else they hold), and when no
description-regex of the entry matches, the first rule's category is returned
as the fuzzy fallback. -/
theorem c4_exact_hit_ignores_wildcard (cfg : Config) (row : PyRow)
    (s1 s2 : UserStore) (ctx : LookupCtx) (r0 : UserRule) (rs : List UserRule)
    (hst : statusFailHit row = false)
    (hctx : lookupCtx cfg row = some ctx)
    (h1 : lookupVal s1 (exactKey ctx) = some (RuleVal.rules rs))
    (h2 : lookupVal s2 (exactKey ctx) = some (RuleVal.rules rs))
    (hrs : rs.head? = some r0) :
    classifyTransaction cfg s1 row = classifyTransaction cfg s2 row ∧
    classifyTransaction cfg s1 row =
      (match rs.findSome?
          (fun r => if r.descRegex ≠ "" ∧ reSearch r.descRegex ctx.desc then
              some r.category
            else Option.none) with
       | some c => (c, "user_rules")
       | Option.none => (r0.category, "user_rules")) := by
  obtain ⟨t, rfl⟩ : ∃ t, rs = r0 :: t := by
    cases rs with
    | nil => simp at hrs
    | cons a t =>
      have ha : a = r0 := by simpa using hrs
      exact ⟨t, by rw [ha]⟩
  have key : ∀ s : UserStore, lookupVal s (exactKey ctx) = some (RuleVal.rules (r0 :: t)) →
      userRulesResult cfg s row = applyRuleVal (RuleVal.rules (r0 :: t)) ctx.desc := by
    intro s hs
    have hfp : firstPresent s (possibleKeys ctx) = some (RuleVal.rules (r0 :: t)) := by
      simp [firstPresent, possibleKeys, List.findSome?_cons, hs]
    simp [userRulesResult, hctx, hfp, ruleValTruthy]
  have happ : applyRuleVal (RuleVal.rules (r0 :: t)) ctx.desc =
      some (match (r0 :: t).findSome?
          (fun r => if r.descRegex ≠ "" ∧ reSearch r.descRegex ctx.desc then
              some r.category
            else Option.none) with
        | some c => (c, "user_rules")
        | Option.none => (r0.category, "user_rules")) := by
    simp only [applyRuleVal]
    cases hfind : (r0 :: t).findSome?
        (fun r => if r.descRegex ≠ "" ∧ reSearch r.descRegex ctx.desc then
            some r.category
          else Option.none) <;> simp
  constructor
  · simp [classifyTransaction, hst, key s1 h1, key s2 h2]
  · simp [classifyTransaction, hst, key s1 h1, happ]

/-- A 15-yuan transaction at hour 5 whose description contains `小说`. -/
def c4row : PyRow :=
  [("金额", Val.num 15), ("交易对方", Val.str "店A"),
   ("商品说明", Val.str "这是小说"), ("交易时间", Val.str "2023-01-01 05:06:07")]

/-- The lookup context `classify_transaction` derives from `c4row`. -/
def c4ctx : LookupCtx :=
  { amountPart := "10-20", party := "店A", desc := "这是小说", hourStr := "5" }

/-- A store holding only the exact key, with a non-matching regex. -/
def c4store1 : UserStore :=
  [("10-20_店A_5", RuleVal.rules [{ descRegex := "xyz", category := "甲" }])]

/-- The same store plus a wildcard entry whose regex matches the description. -/
def c4store2 : UserStore :=
  [("10-20_店A_5", RuleVal.rules [{ descRegex := "xyz", category := "甲" }]),
   ("10-20_店A_*", RuleVal.rules [{ descRegex := "小说", category := "乙" }])]

/-- Counterexample to C4 as stated: the exact key is present but its only
description-regex (`xyz`) does not match the description, and the wildcard
key holds a rule whose regex (`小说`) does match — yet the resolver returns
the exact entry's fuzzy fallback `甲` without ever consulting the wildcard
entry, not the wildcard's `乙`. -/
theorem c4_wildcard_not_consulted_cex :
    classifyTransaction defaultConfig c4store2 c4row = ("甲", "user_rules") ∧
    reSearch "小说" "这是小说" = true ∧
    reSearch "xyz" "这是小说" = false ∧
    ("甲" : String) ≠ "乙" := by
  refine ⟨by decide, by decide, by decide, by decide⟩

/-- Witness for the amended C4 at the concrete stores above: adding the
matching wildcard entry changes nothing, and the result is the exact entry's
fuzzy fallback. -/
theorem c4_exact_hit_ignores_wildcard_witness :
    classifyTransaction defaultConfig c4store1 c4row =
      classifyTransaction defaultConfig c4store2 c4row ∧
    classifyTransaction defaultConfig c4store1 c4row = ("甲", "user_rules") := by
  have h := c4_exact_hit_ignores_wildcard defaultConfig c4row c4store1 c4store2 c4ctx
    { descRegex := "xyz", category := "甲" } [{ descRegex := "xyz", category := "甲" }]
    (by decide) (by decide) (by decide) (by decide) (by decide)
  exact ⟨h.1, h.2.trans (by decide)⟩

/-! ## C6 -/

/-- In a strictly ascending list, the head is at most every element. -/
theorem sorted_head_le_get (y : Nat) (rest : List Nat)
    (hp : (y :: rest).Pairwise (· < ·)) (j : Fin (y :: rest).length) :
    y ≤ (y :: rest).get j := by
  obtain ⟨jv, hj⟩ := j
  cases jv with
  | zero => simp
  | succ jj =>
    have hmem : rest.get ⟨jj, by simpa using hj⟩ ∈ rest := List.get_mem _ _ _
    exact ((List.pairwise_cons.mp hp).1 _ hmem).le

/-- The last element of a list is a member. -/
theorem mem_of_getLast2 : ∀ (l : List Nat) (L : Nat), l.getLast? = some L → L ∈ l := by
  intro l
  induction l with
  | nil => intro L h; simp at h
  | cons x t ih =>
    intro L h
    cases t with
    | nil => simp_all
    | cons y rest =>
      rw [List.getLast?_cons_cons] at h
      exact List.mem_cons_of_mem _ (ih L h)

/-- The bucket loop finds the (unique, under sortedness) enclosing half-open
interval. -/
theorem bucketLabel_of_mem (m : String) (a : Rat) :
    ∀ (l : List Nat), l.Pairwise (· < ·) → ∀ i (h : i + 1 < l.length),
      ((l.get ⟨i, Nat.lt_of_succ_lt h⟩ : Nat) : Rat) ≤ a →
      a < ((l.get ⟨i + 1, h⟩ : Nat) : Rat) →
      bucketLabel m a l =
        String.mk (natDigits (l.get ⟨i, Nat.lt_of_succ_lt h⟩)) ++ "-" ++
          String.mk (natDigits (l.get ⟨i + 1, h⟩)) := by
  intro l
  induction l with
  | nil => intro _ i h; simp at h
  | cons x t ih =>
    intro hp i h hlo hhi
    cases t with
    | nil => simp at h
    | cons y rest =>
      cases i with
      | zero =>
        simp only [List.get] at hlo hhi
        simp [bucketLabel, if_pos (And.intro hlo hhi)]
      | succ j =>
        have hy : (y : Rat) ≤ a := by
          have hj : j < (y :: rest).length := by simpa using Nat.lt_of_succ_lt h
          have hle : y ≤ (y :: rest).get ⟨j, hj⟩ :=
            sorted_head_le_get y rest hp.of_cons ⟨j, hj⟩
          have : ((y : Nat) : Rat) ≤ (((y :: rest).get ⟨j, hj⟩ : Nat) : Rat) := by
            exact_mod_cast hle
          exact le_trans this hlo
        have hcond : ¬ ((x : Rat) ≤ a ∧ a < (y : Rat)) :=
          fun hc => absurd hc.2 (not_lt.mpr hy)
        simp only [bucketLabel, if_neg hcond]
        exact ih hp.of_cons j (by simpa using h) hlo hhi

/-- Past the last boundary the loop falls through to the overflow label. -/
theorem bucketLabel_of_ge_last (m : String) (a : Rat) :
    ∀ (l : List Nat), l.Pairwise (· < ·) → ∀ L, l.getLast? = some L →
      ((L : Nat) : Rat) ≤ a → bucketLabel m a l = m := by
  intro l
  induction l with
  | nil => intro _ L h; simp at h
  | cons x t ih =>
    intro hp L hL hle
    cases t with
    | nil => rfl
    | cons y rest =>
      rw [List.getLast?_cons_cons] at hL
      have hyL : y ≤ L := by
        have hmem := mem_of_getLast2 (y :: rest) L hL
        rcases List.mem_cons.mp hmem with h1 | h2
        · exact le_of_eq h1.symm
        · exact ((List.pairwise_cons.mp hp.of_cons).1 _ h2).le
      have hy : (y : Rat) ≤ a := by
        have : ((y : Nat) : Rat) ≤ ((L : Nat) : Rat) := by exact_mod_cast hyL
        exact le_trans this hle
      have hcond : ¬ ((x : Rat) ≤ a ∧ a < (y : Rat)) :=
        fun hc => absurd hc.2 (not_lt.mpr hy)
      simp only [bucketLabel, if_neg hcond]
      exact ih hp.of_cons L hL hle

/-- C6: for a nonzero amount (and bucketing enabled), the fingerprint bucket
token places the absolute amount into the unique half-open, lower-inclusive
interval `[intervals[i], intervals[i+1])` of the configured ascending
boundary list (so a boundary amount maps to the bucket starting there), and
an absolute amount at or above the last boundary maps to the overflow
label. -/
theorem c6_bucket_halfopen (f : SysFuzzy) (amt : Rat)
    (hig : f.ignoreAmount = false) (h0 : amt ≠ 0)
    (hs : f.intervals.Pairwise (· < ·)) :
    (∀ i (h : i + 1 < f.intervals.length),
        ((f.intervals.get ⟨i, Nat.lt_of_succ_lt h⟩ : Nat) : Rat) ≤ |amt| →
        |amt| < ((f.intervals.get ⟨i + 1, h⟩ : Nat) : Rat) →
        classifyAmountPart f amt =
          String.mk (natDigits (f.intervals.get ⟨i, Nat.lt_of_succ_lt h⟩)) ++ "-" ++
            String.mk (natDigits (f.intervals.get ⟨i + 1, h⟩))) ∧
    (∀ L, f.intervals.getLast? = some L → ((L : Nat) : Rat) ≤ |amt| →
        classifyAmountPart f amt = f.maxLabel) := by
  have habs : ¬ (|amt| = 0) := by simpa using h0
  constructor
  · intro i h hlo hhi
    simp only [classifyAmountPart, hig, Bool.false_eq_true, if_false, if_neg habs]
    exact bucketLabel_of_mem f.maxLabel |amt| f.intervals hs i h hlo hhi
  · intro L hL hle
    simp only [classifyAmountPart, hig, Bool.false_eq_true, if_false, if_neg habs]
    exact bucketLabel_of_ge_last f.maxLabel |amt| f.intervals hs L hL hle

/-- Witness for C6 at the default boundaries: the boundary amount 20 lands in
`[20, 50)`, and 700 overflows to `500+`. -/
theorem c6_bucket_halfopen_witness :
    classifyAmountPart defaultConfig.fuzzy 20 = "20-50" ∧
    classifyAmountPart defaultConfig.fuzzy 700 = "500+" := by
  constructor
  · have h := (c6_bucket_halfopen defaultConfig.fuzzy 20 rfl (by decide)
      (by decide)).1 2 (by decide) (by decide) (by decide)
    exact h.trans (by decide)
  · exact (c6_bucket_halfopen defaultConfig.fuzzy 700 rfl (by decide)
      (by decide)).2 500 (by decide) (by decide)

/-! ## C8 -/

/-- C8 (amended): `get_classification_statistics` is total — if the category
column is absent it synthesizes the placeholder column and proceeds — and on
the internal-failure path (no `金额` column, the `KeyError` of line 279) it
returns the zeroed fallback object, which carries total income, total
expense, net income, the category map and the platform map but OMITS the
non-operational total of the success path. -/
theorem c8_stats_failure_fallback (df : DataFrame) :
    ("金额" ∉ df.cols → (getClassificationStatistics df).2 = exceptStats) ∧
    (("调整后分类" ∉ df.cols ∧ "分类" ∉ df.cols) →
        "分类" ∈ (getClassificationStatistics df).1.cols) := by
  have hfst : (statsWorkingDf df).1 = df ∨
      (statsWorkingDf df).1 = dfSetColConst df "分类" (Val.str "未分类") := by
    unfold statsWorkingDf
    by_cases h1 : "调整后分类" ∈ df.cols ∧ df.rows ≠ []
    · left; rw [if_pos h1]
    · by_cases h2 : "分类" ∈ df.cols ∧ df.rows ≠ []
      · left; rw [if_neg h1, if_pos h2]
      · right; rw [if_neg h1, if_neg h2]
  constructor
  · intro hm
    have hmm : "金额" ∉ (statsWorkingDf df).1.cols := by
      rcases hfst with h | h <;> rw [h]
      · exact hm
      · by_cases h3 : "分类" ∈ df.cols <;> simp [dfSetColConst, h3, hm]
    unfold getClassificationStatistics
    simp [hmm]
  · intro ⟨h1, h2⟩
    have hwork : (statsWorkingDf df).1 = dfSetColConst df "分类" (Val.str "未分类") := by
      unfold statsWorkingDf
      have hc1 : ¬ ("调整后分类" ∈ df.cols ∧ df.rows ≠ []) := fun hc => h1 hc.1
      have hc2 : ¬ ("分类" ∈ df.cols ∧ df.rows ≠ []) := fun hc => h2 hc.1
      simp [hc1, hc2]
    have hmem : "分类" ∈ (dfSetColConst df "分类" (Val.str "未分类")).cols := by
      simp [dfSetColConst, h2]
    unfold getClassificationStatistics
    split <;> simpa [hwork] using hmem

/-- A classified one-row table with no `金额` column. -/
def c8df : DataFrame :=
  { cols := ["分类", "平台"]
    rows := [[("分类", Val.str "收入-工资"), ("平台", Val.str "微信")]] }

/-- Counterexample to C8 as stated: on this failing input the aggregation
falls into the `except` branch and the returned object has NO
non-operational-total field, so it does not contain all the §4.5 fields the
claim requires. -/
theorem c8_fallback_missing_field_cex :
    (getClassificationStatistics c8df).2 = exceptStats ∧
    (getClassificationStatistics c8df).2.nonOperTotal = Option.none ∧
    (computeStats (dfSetColConst c8df "金额" (Val.num 0)) "分类").nonOperTotal ≠
      Option.none := by
  refine ⟨by decide, by decide, by decide⟩

/-- An empty table with no columns at all. -/
def c8df2 : DataFrame := { cols := [], rows := [] }

/-- Witness for the amended C8 at the concrete tables above. -/
theorem c8_stats_failure_fallback_witness :
    (getClassificationStatistics c8df).2 = exceptStats ∧
    "分类" ∈ (getClassificationStatistics c8df2).1.cols :=
  ⟨(c8_stats_failure_fallback c8df).1 (by decide),
   (c8_stats_failure_fallback c8df2).2 ⟨by decide, by decide⟩⟩

/-! ## C9 -/

/-- C9 (amended): `EnhancedTransactionClassifier._load_rules` never fails —
for every file state (missing, undecodable, or any decoded value) it returns
a rule set satisfying the structural requirement, falling back to the
minimal valid rule set; `TransactionClassifier.__init__`, by contrast,
constructs successfully exactly when the config file decodes to a JSON dict,
and propagates an exception when the file is missing or malformed. -/
theorem c9_rule_config_fallback :
    (∀ fr : FileRead, rulesWellFormed (enhancedLoadRules fr) = true) ∧
    (∀ cf uf : FileRead, initOk (transactionClassifierInit cf uf) = true ↔
        ∃ fs, cf = FileRead.content (JVal.obj fs)) := by
  constructor
  · intro fr
    cases fr with
    | missing => decide
    | malformed => decide
    | content j =>
      cases h : rulesAssert j with
      | ok b =>
        cases b with
        | true => simp [enhancedLoadRules, h, rulesWellFormed]
        | false =>
          simp only [enhancedLoadRules, h]
          decide
      | error e =>
        simp only [enhancedLoadRules, h]
        decide
  · intro cf uf
    constructor
    · intro h
      cases cf with
      | missing => simp [transactionClassifierInit, initOk] at h
      | malformed => simp [transactionClassifierInit, initOk] at h
      | content j =>
        cases j with
        | obj fs => exact ⟨fs, rfl⟩
        | arr xs => simp [transactionClassifierInit, jGetD, initOk] at h
        | str s => simp [transactionClassifierInit, jGetD, initOk] at h
        | num q => simp [transactionClassifierInit, jGetD, initOk] at h
        | bool b => simp [transactionClassifierInit, jGetD, initOk] at h
        | null => simp [transactionClassifierInit, jGetD, initOk] at h
    · rintro ⟨fs, rfl⟩
      unfold transactionClassifierInit jGetD
      cases hfind : fs.findSome?
          (fun p => if p.1 = "分类规则" then some p.2 else Option.none) <;>
        simp [initOk, hfind]

/-- Counterexample to C9 as stated: construction of `TransactionClassifier`
with a missing configuration file surfaces the exception to the caller
instead of falling back. -/
theorem c9_init_missing_config_cex :
    initOk (transactionClassifierInit FileRead.missing FileRead.missing) = false := by
  decide

/-- A one-row table with neither category column. -/
def c10df : DataFrame := { cols := ["金额"], rows := [[("金额", Val.num 5)]] }

/-- Witness for C10 at a concrete unclassified table. -/
theorem c10_stats_mutates_input_witness :
    (getClassificationStatistics c10df).1 =
      dfSetColConst c10df "分类" (Val.str "未分类") ∧
    (getClassificationStatistics c10df).1 ≠ c10df :=
  c10_stats_mutates_input c10df (by decide) (by decide)
